import Mathlib

/-!
Verification of the vector-index lifecycle and ingestion core of the
azureai-basic-python repository.

The startup sequence lives in src/api/main.py (the lifespan context
manager, lines 47-124).  The RAG helper it imports (src/api/rag_helper.py:
RAGHelper with create_index_maybe, is_index_empty, upload_documents and
the retrieval operations) is not part of the available sources, so those
operations are modelled from the specification; each such definition is
marked with a doc comment starting with the words Modelled from the spec.
Embedding scalars are modelled as rationals; machine floating point is not
needed because the properties under study only concern vector lengths,
orderings and counts.
-/

namespace AzureRag

/-- Distance metric enumeration for the vector field of an index. -/
inductive Metric where
  | cosine
  | dotProduct
  | euclidean
deriving DecidableEq

/-- Modelled from the spec: the schema of an index, with a single vector
field of a given dimensionality, the configured distance metric, and the
non-vector retrievable fields. -/
structure IndexSchema where
  vector_dimensions : Int
  vector_field_name : String
  distance_metric : Metric
  retrievable_fields : List String
deriving DecidableEq

/-- A document stored in the index: unique id, raw text, embedding vector
and scalar metadata. -/
structure DocumentRecord where
  id : String
  text : String
  embedding : List Rat
  metadata : List (String × String)
deriving DecidableEq

/-- A raw corpus row: optional explicit id column, text, optional
precomputed embedding, metadata columns. -/
structure Row where
  id : Option String
  text : String
  embedding : Option (List Rat)
  metadata : List (String × String)
deriving DecidableEq

/-- The state of the Vector Index Store: named index schemas plus the
documents held per index name. -/
structure Store where
  indexes : List (String × IndexSchema)
  docs : List (String × DocumentRecord)
deriving DecidableEq

/-- The store with no indexes and no documents. -/
def emptyStore : Store := { indexes := [], docs := [] }

/-- Store boundary operation: does an index with this name exist. -/
def indexExists (s : Store) (name : String) : Bool :=
  s.indexes.any (fun p => p.1 == name)

/-- Store boundary operation: create an index with the given schema. -/
def createIndex (s : Store) (name : String) (sch : IndexSchema) : Store :=
  { s with indexes := s.indexes ++ [(name, sch)] }

/-- Store boundary operation: number of documents held under a name. -/
def docCount (s : Store) (name : String) : Nat :=
  (s.docs.filter (fun p => p.1 == name)).length

/-- The documents held in the store under an index name. -/
def docsOf (s : Store) (name : String) : List DocumentRecord :=
  (s.docs.filter (fun p => p.1 == name)).map (fun p => p.2)

/-- Dimensionality of the vector field of the named index, when present. -/
def indexDims (s : Store) (name : String) : Option Int :=
  (List.lookup name s.indexes).map (fun sch => sch.vector_dimensions)

/-- Store boundary operation: insert-or-replace one record by id. -/
def upsertOne (s : Store) (name : String) (r : DocumentRecord) : Store :=
  { s with
    docs := (s.docs.filter (fun p => !(p.1 == name && p.2.id == r.id))) ++ [(name, r)] }

/-- Store boundary operation: upsert a batch of records in order. -/
def upsertMany (s : Store) (name : String) (rs : List DocumentRecord) : Store :=
  rs.foldl (fun acc r => upsertOne acc name r) s

/-- An embedding provider: text in, fixed-length rational vector out. -/
def EmbedProvider : Type := String → List Rat

/-- Errors raised by the modelled RAG helper operations. -/
inductive RagError where
  | invalidDimension
  | indexNotReady
deriving DecidableEq

/-- Modelled from the spec: build_schema constructs the field and vector
schema for a new index.  It is a pure function which fails with
InvalidDimensionError when dimensions is not positive, and otherwise
declares one vector field of exactly the requested length using the
configured distance metric, with the id, text and metadata columns as
retrievable non-vector fields. -/
def build_schema (dimensions : Int) (metric : Metric) : Except RagError IndexSchema :=
  if dimensions ≤ 0 then
    .error .invalidDimension
  else
    .ok { vector_dimensions := dimensions
          vector_field_name := "embedding"
          distance_metric := metric
          retrievable_fields := ["id", "text", "metadata"] }

/-- Modelled from the spec: ensure_index checks existence of the name in
the store; if absent it builds a schema and creates the index, if present
it performs no state change beyond the existence read (no validation of
the existing schema).  The returned flag records whether a creation
happened. -/
def ensure_index (s : Store) (name : String) (dims : Int) (metric : Metric) :
    Except RagError (Store × Bool) :=
  if indexExists s name then
    .ok (s, false)
  else
    match build_schema dims metric with
    | .error e => .error e
    | .ok sch => .ok (createIndex s name sch, true)

/-- Reason recorded for a failed corpus row. -/
inductive FailReason where
  | embeddingDimensionMismatch
deriving DecidableEq

/-- One entry of the failed list of an ingestion report. -/
structure RowFailure where
  row_index : Nat
  reason : FailReason
deriving DecidableEq

/-- Modelled from the spec: the report returned by the ingestion
pipeline. -/
structure IngestionReport where
  attempted : Nat
  succeeded : Nat
  failed : List RowFailure
deriving DecidableEq

/-- The embedding a row contributes: the precomputed one when the row
carries it, otherwise the one obtained from the Embedding Provider. -/
def effEmbedding (prov : EmbedProvider) (r : Row) : List Rat :=
  match r.embedding with
  | some e => e
  | none => prov r.text

/-- A row is valid when its effective embedding has exactly the index
dimensionality. -/
def rowValid (prov : EmbedProvider) (dims : Int) (r : Row) : Bool :=
  ((effEmbedding prov r).length : Int) == dims

/-- The document record assembled from row number i (1-based): the
deterministic id is the explicit id column when present, otherwise it is
derived from the row position. -/
def recordOf (prov : EmbedProvider) (i : Nat) (r : Row) : DocumentRecord :=
  { id := match r.id with
      | some x => x
      | none => "row-" ++ toString i
    text := r.text
    embedding := effEmbedding prov r
    metadata := r.metadata }

/-- The records of the valid rows of a corpus, in corpus order, rows
numbered from 1. -/
def validRecords (prov : EmbedProvider) (dims : Int) (rows : List Row) :
    List DocumentRecord :=
  (rows.enumFrom 1).filterMap
    (fun p => if rowValid prov dims p.2 then some (recordOf prov p.1 p.2) else none)

/-- The failed entries of a corpus, in corpus order, rows numbered
from 1. -/
def failedRows (prov : EmbedProvider) (dims : Int) (rows : List Row) :
    List RowFailure :=
  (rows.enumFrom 1).filterMap
    (fun p => if rowValid prov dims p.2 then none
              else some { row_index := p.1, reason := FailReason.embeddingDimensionMismatch })

/-- Trace actions of the startup sequence, recorded in call order. -/
inductive Action where
  | createIndexMaybe (index_name : String) (dims : Int)
  | isIndexEmpty (index_name : String)
  | uploadDocuments (path : String)
  | upsert (index_name : String) (count : Nat)
  | yieldServe
deriving DecidableEq

/-- Modelled from the spec: the ingestion pipeline.  Each corpus row is
processed in order: a row whose effective embedding (precomputed, or
obtained from the Embedding Provider) has the wrong length is recorded in
the failed list with reason EmbeddingDimensionMismatch and skipped; every
valid row is assembled into a DocumentRecord and the batch of valid
records is upserted (the corpus fits one batch within the recommended
batch size).  Per-row failures never abort the run: the pipeline always
returns the final store, the report, and the upsert calls it made. -/
def ingest (prov : EmbedProvider) (s : Store) (name : String) (dims : Int)
    (rows : List Row) : Store × IngestionReport × List Action :=
  let recs := validRecords prov dims rows
  (upsertMany s name recs,
   { attempted := rows.length
     succeeded := recs.length
     failed := failedRows prov dims rows },
   if recs.isEmpty then [] else [Action.upsert name recs.length])

/-- A retrieval result: text, similarity score and metadata. -/
structure SearchResult where
  text : String
  score : Rat
  metadata : List (String × String)
deriving DecidableEq

/-- Ordering of search results by decreasing similarity score. -/
def byScoreDesc (a b : SearchResult) : Prop := b.score ≤ a.score

instance byScoreDesc.instDecidable : DecidableRel byScoreDesc :=
  fun a b => inferInstanceAs (Decidable (b.score ≤ a.score))

instance byScoreDesc.instTotal : IsTotal SearchResult byScoreDesc :=
  ⟨fun a b => le_total b.score a.score⟩

instance byScoreDesc.instTrans : IsTrans SearchResult byScoreDesc :=
  ⟨fun _ _ _ hab hbc => le_trans hbc hab⟩

/-- Modelled from the spec: retrieval at query time.  When ensure_index
has not completed for the process the operation fails with
IndexNotReadyError; otherwise the query text is embedded, every document
of the index is scored against the query vector with the configured
metric's scoring function, and the results are returned ordered by
decreasing similarity score, truncated to the requested top_k. -/
def search (prov : EmbedProvider) (scoreFn : List Rat → List Rat → Rat)
    (s : Store) (name : String) (ready : Bool) (query_text : String)
    (top_k : Nat) : Except RagError (List SearchResult) :=
  if ready then
    let qv := prov query_text
    let scored := (docsOf s name).map
      (fun d => { text := d.text, score := scoreFn qv d.embedding, metadata := d.metadata })
    .ok ((List.insertionSort byScoreDesc scored).take top_k)
  else
    .error .indexNotReady

/-- The RAG helper object constructed in the lifespan of src/api/main.py
(lines 93-100): endpoint, index name, dimensionality, embedding model
deployment name.  Credential and client handles are external and carry no
state relevant here. -/
structure RAGHelper where
  endpoint : String
  index_name : String
  dimensions : Int
  model : String
deriving DecidableEq

/-- Modelled from the spec: create_index_maybe is the RAG helper method
invoked at startup; it realises ensure_index for the helper's index name
with the dimensionality override passed by the caller, using the
configured distance metric. -/
def create_index_maybe (rag : RAGHelper) (s : Store) (dimensions_override : Int) :
    Except RagError (Store × Bool) :=
  ensure_index s rag.index_name dimensions_override Metric.cosine

/-- Modelled from the spec: is_empty reports whether the store holds zero
documents for the given index name. -/
def is_empty (s : Store) (name : String) : Bool :=
  docCount s name == 0

/-- Modelled from the spec: is_index_empty is the RAG helper method that
applies the emptiness check to the helper's own index. -/
def is_index_empty (rag : RAGHelper) (s : Store) : Bool :=
  is_empty s rag.index_name

/-- Modelled from the spec: upload_documents runs the ingestion pipeline
over the corpus rows read from the configured file, against the helper's
index with the helper's dimensionality. -/
def upload_documents (rag : RAGHelper) (prov : EmbedProvider) (s : Store)
    (rows : List Row) : Store × IngestionReport × List Action :=
  ingest prov s rag.index_name rag.dimensions rows

/-- A project connection as listed by the projects client: its endpoint
URL is the only field the startup code reads (main.py line 88). -/
structure Connection where
  endpoint_url : String
deriving DecidableEq

/-- The environment variables read by the lifespan after client
construction: the project connection string (main.py line 65), the search
index name and embedding deployment name (line 92), and the chat
deployment name (line 119).  A value is none when the variable is unset. -/
structure Env where
  aiprojectConnStr : Option String
  searchIndexName : Option String
  embedDeploymentName : Option String
  chatDeploymentName : Option String
deriving DecidableEq

/-- Python truthiness of an optional string: set and non-empty. -/
def truthy : Option String → Bool
  | none => false
  | some s => !(s == "")

/-- The endpoint selection loop of main.py lines 86-89: endpoint starts as
None, and the loop body assigns the first listed connection's endpoint URL
and breaks immediately, so only the head of the list is ever read. -/
def firstEndpoint : List Connection → Option String
  | [] => none
  | c :: _ => some c.endpoint_url

/-- The condition of main.py line 92: the RAG helper is constructed only
when the endpoint and both environment variables are truthy. -/
def ragConfigured (env : Env) (conns : List Connection) : Bool :=
  truthy (firstEndpoint conns) && truthy env.searchIndexName && truthy env.embedDeploymentName

/-- Connectivity of the Vector Index Store during startup: either the
store is reachable with a given state, or every call to it fails. -/
inductive StoreConn where
  | up (s : Store)
  | down
deriving DecidableEq

/-- Errors that abort the lifespan before it yields: a missing required
environment variable (KeyError from an os.environ lookup), an unreachable
store, or an error propagated out of the RAG helper. -/
inductive StartupError where
  | keyError (key : String)
  | storeUnreachable
  | ragError (e : RagError)
deriving DecidableEq

/-- The values the lifespan publishes before yielding (the globals
assignments of main.py lines 113-120), together with the endpoint it
selected and the store state it left behind. -/
structure LifespanOk where
  endpoint : Option String
  rag : Option RAGHelper
  finalStore : StoreConn
  chat_model : String
  embed_model : String
deriving DecidableEq

/-- The corpus file path built in main.py lines 107-110, relative to the
repository root. -/
def embeddingsCsvPath : String := "data/embeddings.csv"

/-- The tail of the lifespan (main.py lines 113-121): the globals
assignments, whose os.environ lookups for the chat and embed deployment
names raise KeyError when the variable is unset, and then the yield that
hands control to request serving. -/
def finishStartup (env : Env) (tr : List Action) (endpoint : Option String)
    (rag : Option RAGHelper) (sc : StoreConn) :
    List Action × Except StartupError LifespanOk :=
  match env.chatDeploymentName with
  | none => (tr, .error (.keyError "AZURE_AI_CHAT_DEPLOYMENT_NAME"))
  | some cm =>
    match env.embedDeploymentName with
    | none => (tr, .error (.keyError "AZURE_AI_EMBED_DEPLOYMENT_NAME"))
    | some em =>
      (tr ++ [Action.yieldServe],
       .ok { endpoint := endpoint, rag := rag, finalStore := sc,
             chat_model := cm, embed_model := em })

/-- The RAG branch of the lifespan (main.py lines 93-110): the helper is
constructed with the hardcoded dimensionality 100, create_index_maybe is
called with dimensions_override 100, and upload_documents runs only when
is_index_empty reports an empty index.  A store failure or helper error
propagates out of the lifespan uncaught. -/
def ragStartup (env : Env) (ep iname ename : String) (sc : StoreConn)
    (corpus : List Row) (prov : EmbedProvider) :
    List Action × Except StartupError LifespanOk :=
  let rag : RAGHelper :=
    { endpoint := ep, index_name := iname, dimensions := 100, model := ename }
  match sc with
  | .down => ([Action.createIndexMaybe iname 100], .error .storeUnreachable)
  | .up s =>
    match create_index_maybe rag s 100 with
    | .error e => ([Action.createIndexMaybe iname 100], .error (.ragError e))
    | .ok (s1, _) =>
      if is_index_empty rag s1 then
        let out := upload_documents rag prov s1 corpus
        finishStartup env
          ([Action.createIndexMaybe iname 100, Action.isIndexEmpty iname,
            Action.uploadDocuments embeddingsCsvPath] ++ out.2.2)
          (some ep) (some rag) (.up out.1)
      else
        finishStartup env
          [Action.createIndexMaybe iname 100, Action.isIndexEmpty iname]
          (some ep) (some rag) (.up s1)

/-- The lifespan context manager of src/api/main.py lines 47-121, as a
function of the environment, the listed search connections, the store
connectivity, the corpus file contents and the embedding provider.  It
returns the trace of index and serving actions in call order, and either
the published globals or the error that aborted startup.  Credential
selection and telemetry (lines 49-80) are glue without influence on these
outputs and are not modelled. -/
def lifespan (env : Env) (conns : List Connection) (sc : StoreConn)
    (corpus : List Row) (prov : EmbedProvider) :
    List Action × Except StartupError LifespanOk :=
  match env.aiprojectConnStr with
  | none => ([], .error (.keyError "AZURE_AIPROJECT_CONNECTION_STRING"))
  | some _ =>
    if ragConfigured env conns then
      ragStartup env ((firstEndpoint conns).getD "") (env.searchIndexName.getD "")
        (env.embedDeploymentName.getD "") sc corpus prov
    else
      finishStartup env [] (firstEndpoint conns) none sc

/-- The schema build_schema produces for a positive dimensionality. -/
def builtSchema (dims : Int) (metric : Metric) : IndexSchema :=
  { vector_dimensions := dims
    vector_field_name := "embedding"
    distance_metric := metric
    retrievable_fields := ["id", "text", "metadata"] }

/-- The store ensure_index leaves behind for a positive dimensionality. -/
def ensureStore (s : Store) (name : String) (dims : Int) (metric : Metric) : Store :=
  if indexExists s name then s else createIndex s name (builtSchema dims metric)

/-- A trace action is an upsert call against the store. -/
def isUpsertAction : Action → Bool
  | .upsert _ _ => true
  | _ => false

/-- Number of upsert calls recorded in a trace. -/
def countUpserts (tr : List Action) : Nat :=
  (tr.filter isUpsertAction).length

theorem build_schema_pos (dims : Int) (m : Metric) (h : 0 < dims) :
    build_schema dims m = .ok (builtSchema dims m) := by
  unfold build_schema builtSchema
  rw [if_neg (by omega)]

theorem ensure_index_eq (s : Store) (name : String) (dims : Int) (m : Metric)
    (h : 0 < dims) :
    ensure_index s name dims m = .ok (ensureStore s name dims m, !indexExists s name) := by
  unfold ensure_index ensureStore
  by_cases he : indexExists s name
  · simp [he]
  · simp [he, build_schema_pos dims m h]

theorem ensureStore_docs (s : Store) (name : String) (dims : Int) (m : Metric) :
    (ensureStore s name dims m).docs = s.docs := by
  unfold ensureStore createIndex
  split <;> rfl

theorem docCount_ensureStore (s : Store) (name n : String) (dims : Int) (m : Metric) :
    docCount (ensureStore s name dims m) n = docCount s n := by
  unfold docCount
  rw [ensureStore_docs]

theorem filterMap_if_length {α β γ : Type} (l : List α) (p : α → Bool)
    (f : α → β) (g : α → γ) :
    (l.filterMap (fun x => if p x then some (f x) else none)).length
      + (l.filterMap (fun x => if p x then none else some (g x))).length
      = l.length := by
  induction l with
  | nil => rfl
  | cons a t ih =>
    by_cases h : p a <;> simp [List.filterMap_cons, h] <;> omega

theorem mem_upsertOne_self (s : Store) (name : String) (r : DocumentRecord) :
    (name, r) ∈ (upsertOne s name r).docs := by
  simp [upsertOne]

theorem mem_upsertOne_of_ne (s : Store) (name : String) (r r' : DocumentRecord)
    (h : (name, r) ∈ s.docs) (hne : r.id ≠ r'.id) :
    (name, r) ∈ (upsertOne s name r').docs := by
  unfold upsertOne
  simp only [List.mem_append]
  left
  rw [List.mem_filter]
  refine ⟨h, ?_⟩
  simp [hne]

theorem mem_upsertMany_of_forall (name : String) (rs : List DocumentRecord)
    (s : Store) (r : DocumentRecord) (h : (name, r) ∈ s.docs)
    (hall : ∀ r' ∈ rs, r.id ≠ r'.id) :
    (name, r) ∈ (upsertMany s name rs).docs := by
  induction rs generalizing s with
  | nil => exact h
  | cons a t ih =>
    have step : (name, r) ∈ (upsertOne s name a).docs :=
      mem_upsertOne_of_ne s name r a h (hall a (by simp))
    exact ih (upsertOne s name a) step (fun r' hr' => hall r' (by simp [hr']))

theorem mem_upsertMany (name : String) (rs : List DocumentRecord) (s : Store)
    (r : DocumentRecord) (hr : r ∈ rs)
    (hnd : rs.Pairwise (fun a b => a.id ≠ b.id)) :
    (name, r) ∈ (upsertMany s name rs).docs := by
  induction rs generalizing s with
  | nil => cases hr
  | cons a t ih =>
    rw [List.pairwise_cons] at hnd
    rcases List.mem_cons.mp hr with h | h
    · subst h
      exact mem_upsertMany_of_forall name t (upsertOne s name r) r
        (mem_upsertOne_self s name r) hnd.1
    · exact ih (upsertOne s name a) h hnd.2

theorem ingest_actions_upserts (prov : EmbedProvider) (s : Store) (name : String)
    (dims : Int) (rows : List Row) :
    ∀ a ∈ (ingest prov s name dims rows).2.2, isUpsertAction a = true := by
  intro a ha
  unfold ingest at ha
  by_cases h : (validRecords prov dims rows).isEmpty
  · simp [h] at ha
  · simp [h] at ha
    rw [ha]
    rfl

theorem lifespan_conn_none (env : Env) (conns : List Connection) (sc : StoreConn)
    (corpus : List Row) (prov : EmbedProvider) (h : env.aiprojectConnStr = none) :
    lifespan env conns sc corpus prov =
      ([], .error (.keyError "AZURE_AIPROJECT_CONNECTION_STRING")) := by
  unfold lifespan
  rw [h]

theorem lifespan_configured (env : Env) (conns : List Connection) (sc : StoreConn)
    (corpus : List Row) (prov : EmbedProvider) (cs : String)
    (hconn : env.aiprojectConnStr = some cs) (hconf : ragConfigured env conns = true) :
    lifespan env conns sc corpus prov =
      ragStartup env ((firstEndpoint conns).getD "") (env.searchIndexName.getD "")
        (env.embedDeploymentName.getD "") sc corpus prov := by
  unfold lifespan
  rw [hconn]
  simp [hconf]

theorem lifespan_not_configured (env : Env) (conns : List Connection) (sc : StoreConn)
    (corpus : List Row) (prov : EmbedProvider) (cs : String)
    (hconn : env.aiprojectConnStr = some cs) (hconf : ragConfigured env conns = false) :
    lifespan env conns sc corpus prov =
      finishStartup env [] (firstEndpoint conns) none sc := by
  unfold lifespan
  rw [hconn]
  simp [hconf]

theorem ragStartup_up_nonempty (env : Env) (ep iname ename : String) (s : Store)
    (corpus : List Row) (prov : EmbedProvider) (h : docCount s iname ≠ 0) :
    ragStartup env ep iname ename (.up s) corpus prov =
      finishStartup env [Action.createIndexMaybe iname 100, Action.isIndexEmpty iname]
        (some ep) (some ⟨ep, iname, 100, ename⟩) (.up (ensureStore s iname 100 .cosine)) := by
  unfold ragStartup create_index_maybe
  dsimp only
  rw [ensure_index_eq _ _ _ _ (by norm_num)]
  unfold is_index_empty is_empty
  simp only [docCount_ensureStore]
  simp [h]

theorem ragStartup_up_empty (env : Env) (ep iname ename : String) (s : Store)
    (corpus : List Row) (prov : EmbedProvider) (h : docCount s iname = 0) :
    ragStartup env ep iname ename (.up s) corpus prov =
      finishStartup env
        ([Action.createIndexMaybe iname 100, Action.isIndexEmpty iname,
          Action.uploadDocuments embeddingsCsvPath]
          ++ (ingest prov (ensureStore s iname 100 .cosine) iname 100 corpus).2.2)
        (some ep) (some ⟨ep, iname, 100, ename⟩)
        (.up (ingest prov (ensureStore s iname 100 .cosine) iname 100 corpus).1) := by
  unfold ragStartup create_index_maybe
  dsimp only
  rw [ensure_index_eq _ _ _ _ (by norm_num)]
  unfold is_index_empty is_empty upload_documents
  simp only [docCount_ensureStore]
  simp [h]

theorem finishStartup_ok (env : Env) (tr : List Action) (endpoint : Option String)
    (rag : Option RAGHelper) (sc : StoreConn) (cm em : String)
    (hc : env.chatDeploymentName = some cm) (he : env.embedDeploymentName = some em) :
    finishStartup env tr endpoint rag sc =
      (tr ++ [Action.yieldServe],
       .ok { endpoint := endpoint, rag := rag, finalStore := sc,
             chat_model := cm, embed_model := em }) := by
  unfold finishStartup
  rw [hc, he]

theorem finishStartup_chat_none (env : Env) (tr : List Action)
    (endpoint : Option String) (rag : Option RAGHelper) (sc : StoreConn)
    (hc : env.chatDeploymentName = none) :
    finishStartup env tr endpoint rag sc =
      (tr, .error (.keyError "AZURE_AI_CHAT_DEPLOYMENT_NAME")) := by
  unfold finishStartup
  rw [hc]

theorem finishStartup_embed_none (env : Env) (tr : List Action)
    (endpoint : Option String) (rag : Option RAGHelper) (sc : StoreConn) (cm : String)
    (hc : env.chatDeploymentName = some cm) (he : env.embedDeploymentName = none) :
    finishStartup env tr endpoint rag sc =
      (tr, .error (.keyError "AZURE_AI_EMBED_DEPLOYMENT_NAME")) := by
  unfold finishStartup
  rw [hc, he]

theorem finishStartup_mem (env : Env) (tr : List Action) (endpoint : Option String)
    (rag : Option RAGHelper) (sc : StoreConn) (a : Action)
    (ha : a ≠ Action.yieldServe) :
    (a ∈ (finishStartup env tr endpoint rag sc).1) ↔ a ∈ tr := by
  unfold finishStartup
  cases hc : env.chatDeploymentName with
  | none => simp
  | some cm =>
    cases he : env.embedDeploymentName with
    | none => simp
    | some em => simp [ha]

theorem finishStartup_countUpserts (env : Env) (tr : List Action)
    (endpoint : Option String) (rag : Option RAGHelper) (sc : StoreConn) :
    countUpserts (finishStartup env tr endpoint rag sc).1 = countUpserts tr := by
  unfold finishStartup countUpserts
  cases hc : env.chatDeploymentName with
  | none => rfl
  | some cm =>
    cases he : env.embedDeploymentName with
    | none => rfl
    | some em => simp [List.filter_append, isUpsertAction]

/-- Claim C7: for every dimensions greater than zero and any metric, build_schema
returns a descriptor whose single vector field has length exactly equal to
dimensions, and for every dimensions less than or equal to zero it fails
with InvalidDimensionError; being a pure Lean function it has no side
effects. -/
theorem build_schema_dimensions (dims : Int) (m : Metric) :
    (0 < dims → ∃ sch, build_schema dims m = .ok sch ∧ sch.vector_dimensions = dims)
    ∧ (dims ≤ 0 → build_schema dims m = .error .invalidDimension) := by
  constructor
  · intro h
    exact ⟨builtSchema dims m, build_schema_pos dims m h, rfl⟩
  · intro h
    unfold build_schema
    rw [if_pos h]

theorem build_schema_dimensions_witness :
    (∃ sch, build_schema 5 Metric.cosine = .ok sch ∧ sch.vector_dimensions = 5)
    ∧ build_schema (-1) Metric.cosine = .error .invalidDimension :=
  ⟨(build_schema_dimensions 5 Metric.cosine).1 (by norm_num),
   (build_schema_dimensions (-1) Metric.cosine).2 (by norm_num)⟩

/-- Claim C2: for every index name, calling ensure_index twice with identical
valid arguments against the initially empty store creates exactly one
index on the first call, and the second call returns the same store
unchanged (a no-op beyond the existence read). -/
theorem ensure_index_idempotent (name : String) (dims : Int) (m : Metric)
    (h : 0 < dims) :
    ∃ s1, ensure_index emptyStore name dims m = .ok (s1, true)
      ∧ s1.indexes.length = 1
      ∧ ensure_index s1 name dims m = .ok (s1, false) := by
  refine ⟨createIndex emptyStore name (builtSchema dims m), ?_, ?_, ?_⟩
  · rw [ensure_index_eq _ _ _ _ h]
    have hex : indexExists emptyStore name = false := rfl
    simp [ensureStore, hex]
  · simp [createIndex, emptyStore]
  · rw [ensure_index_eq _ _ _ _ h]
    have hex : indexExists (createIndex emptyStore name (builtSchema dims m)) name = true := by
      simp [indexExists, createIndex, emptyStore]
    simp [ensureStore, hex]

theorem ensure_index_idempotent_witness :
    ∃ s1, ensure_index emptyStore "idx" 100 Metric.cosine = .ok (s1, true)
      ∧ s1.indexes.length = 1
      ∧ ensure_index s1 "idx" 100 Metric.cosine = .ok (s1, false) :=
  ensure_index_idempotent "idx" 100 Metric.cosine (by norm_num)

/-- Claim C8: ingestion isolates per-row failures.  For any corpus, the report
attempts every row; each row whose effective embedding has the wrong
length is recorded in the failed list with reason
EmbeddingDimensionMismatch while every valid row's record is upserted into
the store, and the counts add up, so a bad row never aborts the run (the
pipeline is a total function into a report). -/
theorem ingest_isolates_row_failures (prov : EmbedProvider) (s : Store)
    (name : String) (dims : Int) (rows : List Row)
    (hids : (validRecords prov dims rows).Pairwise (fun a b => a.id ≠ b.id)) :
    (ingest prov s name dims rows).2.1.attempted = rows.length
    ∧ (ingest prov s name dims rows).2.1.succeeded
        + (ingest prov s name dims rows).2.1.failed.length = rows.length
    ∧ (∀ i r, (i, r) ∈ rows.enumFrom 1 → rowValid prov dims r = false →
        ({ row_index := i, reason := FailReason.embeddingDimensionMismatch } : RowFailure)
          ∈ (ingest prov s name dims rows).2.1.failed)
    ∧ (∀ i r, (i, r) ∈ rows.enumFrom 1 → rowValid prov dims r = true →
        (name, recordOf prov i r) ∈ (ingest prov s name dims rows).1.docs) := by
  refine ⟨rfl, ?_, ?_, ?_⟩
  · show (validRecords prov dims rows).length + (failedRows prov dims rows).length
      = rows.length
    unfold validRecords failedRows
    rw [filterMap_if_length (rows.enumFrom 1) (fun x => rowValid prov dims x.2)
      (fun x => recordOf prov x.1 x.2)
      (fun x => ({ row_index := x.1, reason := FailReason.embeddingDimensionMismatch } : RowFailure))]
    exact List.enumFrom_length
  · intro i r hmem hbad
    show _ ∈ failedRows prov dims rows
    unfold failedRows
    rw [List.mem_filterMap]
    exact ⟨(i, r), hmem, by simp [hbad]⟩
  · intro i r hmem hgood
    have hrec : recordOf prov i r ∈ validRecords prov dims rows := by
      unfold validRecords
      rw [List.mem_filterMap]
      exact ⟨(i, r), hmem, by simp [hgood]⟩
    show (name, recordOf prov i r) ∈ (upsertMany s name (validRecords prov dims rows)).docs
    exact mem_upsertMany name _ s _ hrec hids

/-- A provider used by concrete runs below; it returns a fixed vector. -/
def sampleProv : EmbedProvider := fun _ => []

/-- A corpus row with a precomputed embedding, for concrete runs. -/
def sampleRow (n : Nat) (e : List Rat) : Row :=
  { id := none, text := "t" ++ toString n, embedding := some e, metadata := [] }

/-- A five-row corpus whose third row has an embedding of the wrong
length for a dimensionality of 2. -/
def sampleRows : List Row :=
  [sampleRow 1 [1, 2], sampleRow 2 [3, 4], sampleRow 3 [5, 6, 7],
   sampleRow 4 [8, 9], sampleRow 5 [10, 11]]

theorem ingest_isolates_row_failures_witness :
    (ingest sampleProv emptyStore "idx" 2 sampleRows).2.1 =
      { attempted := 5, succeeded := 4,
        failed := [{ row_index := 3, reason := .embeddingDimensionMismatch }] }
    ∧ ("idx", recordOf sampleProv 1 (sampleRow 1 [1, 2]))
        ∈ (ingest sampleProv emptyStore "idx" 2 sampleRows).1.docs :=
  ⟨by decide,
   (ingest_isolates_row_failures sampleProv emptyStore "idx" 2 sampleRows
     (by decide)).2.2.2 1 (sampleRow 1 [1, 2]) (by decide) (by decide)⟩

theorem docsOf_length (s : Store) (name : String) :
    (docsOf s name).length = docCount s name := by
  simp [docsOf, docCount]

/-- Claim C9: for every query text and top_k, search with the index ready
returns an ok result whose length is the minimum of top_k and the
document count — in particular all available documents when the index
holds fewer than top_k — ordered by decreasing similarity score; it never
raises for insufficient results. -/
theorem search_ranked_and_total (prov : EmbedProvider)
    (scoreFn : List Rat → List Rat → Rat) (s : Store) (name query_text : String)
    (top_k : Nat) :
    ∃ res, search prov scoreFn s name true query_text top_k = .ok res
      ∧ res.length = min top_k (docCount s name)
      ∧ (docCount s name < top_k → res.length = docCount s name)
      ∧ res.Pairwise byScoreDesc := by
  refine ⟨_, rfl, ?_, ?_, ?_⟩
  · rw [List.length_take, (List.perm_insertionSort _ _).length_eq,
      List.length_map, docsOf_length]
  · intro h
    rw [List.length_take, (List.perm_insertionSort _ _).length_eq,
      List.length_map, docsOf_length]
    omega
  · exact List.Pairwise.sublist (List.take_sublist _ _)
      (List.sorted_insertionSort byScoreDesc _)

/-- A similarity scoring function for concrete runs: the dot product. -/
def sampleScore : List Rat → List Rat → Rat :=
  fun a b => ((a.zip b).map (fun p => p.1 * p.2)).sum

/-- A store holding one index with two documents, for concrete runs. -/
def sampleStore : Store :=
  { indexes := [("idx", builtSchema 2 .cosine)]
    docs := [("idx", { id := "a", text := "ta", embedding := [1, 0], metadata := [] }),
             ("idx", { id := "b", text := "tb", embedding := [0, 1], metadata := [] })] }

theorem search_ranked_and_total_witness :
    ∃ res, search sampleProv sampleScore sampleStore "idx" true "q" 3 = .ok res
      ∧ res.length = min 3 (docCount sampleStore "idx")
      ∧ (docCount sampleStore "idx" < 3 → res.length = docCount sampleStore "idx")
      ∧ res.Pairwise byScoreDesc :=
  search_ranked_and_total sampleProv sampleScore sampleStore "idx" "q" 3

/-- Claim C1: with the store reachable, the startup trace of the lifespan
contains the upload_documents call exactly when the RAG branch is
configured and the is_index_empty check observes a document count of
zero; an index whose count is positive leads to zero upsert calls against
the store, regardless of corpus content. -/
theorem uploadDocuments_gated_by_emptiness (env : Env) (conns : List Connection)
    (s : Store) (corpus : List Row) (prov : EmbedProvider) (cs iname : String)
    (hconn : env.aiprojectConnStr = some cs)
    (hiname : env.searchIndexName = some iname) :
    ((Action.uploadDocuments embeddingsCsvPath ∈ (lifespan env conns (.up s) corpus prov).1)
       ↔ (ragConfigured env conns = true ∧ docCount s iname = 0))
    ∧ (docCount s iname ≠ 0 →
        countUpserts (lifespan env conns (.up s) corpus prov).1 = 0) := by
  by_cases hconf : ragConfigured env conns = true
  · rw [lifespan_configured env conns _ corpus prov cs hconn hconf, hiname,
      Option.getD_some]
    by_cases hempty : docCount s iname = 0
    · rw [ragStartup_up_empty _ _ _ _ _ _ _ hempty]
      constructor
      · rw [finishStartup_mem _ _ _ _ _ _ (by simp)]
        simp [hconf, hempty]
      · intro hne
        exact absurd hempty hne
    · rw [ragStartup_up_nonempty _ _ _ _ _ _ _ hempty]
      constructor
      · rw [finishStartup_mem _ _ _ _ _ _ (by simp)]
        simp [hempty]
      · intro _
        rw [finishStartup_countUpserts]
        simp [countUpserts, isUpsertAction]
  · have hconf' : ragConfigured env conns = false := by
      revert hconf
      cases ragConfigured env conns <;> simp
    rw [lifespan_not_configured env conns _ corpus prov cs hconn hconf']
    constructor
    · rw [finishStartup_mem _ _ _ _ _ _ (by simp)]
      simp [hconf']
    · intro _
      rw [finishStartup_countUpserts]
      rfl

/-- An environment with every startup variable set, for concrete runs. -/
def cEnv : Env :=
  { aiprojectConnStr := some "conn"
    searchIndexName := some "idx"
    embedDeploymentName := some "embed"
    chatDeploymentName := some "chat" }

/-- A single listed search connection, for concrete runs. -/
def cConns : List Connection := [{ endpoint_url := "ep" }]

/-- A provider whose output length is 3, for concrete runs. -/
def cProv : EmbedProvider := fun _ => [1, 2, 3]

/-- A corpus row without a precomputed embedding, for concrete runs. -/
def cRow : Row := { id := none, text := "hello", embedding := none, metadata := [] }

/-- A store already holding a document under the configured index. -/
def busyStore : Store :=
  { indexes := [("idx", builtSchema 100 .cosine)]
    docs := [("idx", { id := "a", text := "ta", embedding := [1, 0], metadata := [] })] }

theorem uploadDocuments_gated_by_emptiness_witness :
    countUpserts (lifespan cEnv cConns (.up busyStore) [cRow] cProv).1 = 0 :=
  (uploadDocuments_gated_by_emptiness cEnv cConns busyStore [cRow] cProv
    "conn" "idx" rfl rfl).2 (by decide)

theorem ragStartup_down (env : Env) (ep iname ename : String) (corpus : List Row)
    (prov : EmbedProvider) :
    ragStartup env ep iname ename .down corpus prov =
      ([Action.createIndexMaybe iname 100], .error .storeUnreachable) := rfl

theorem finishStartup_ok_inv (env : Env) (tr : List Action) (e : Option String)
    (r : Option RAGHelper) (sc : StoreConn) (ok : LifespanOk)
    (h : (finishStartup env tr e r sc).2 = .ok ok) :
    ok.endpoint = e ∧ ok.rag = r ∧ ok.finalStore = sc := by
  unfold finishStartup at h
  cases hc : env.chatDeploymentName with
  | none =>
    rw [hc] at h
    simp at h
  | some cm =>
    cases he : env.embedDeploymentName with
    | none =>
      rw [hc, he] at h
      simp at h
    | some em =>
      rw [hc, he] at h
      simp at h
      rw [← h]
      exact ⟨rfl, rfl, rfl⟩

theorem upsertMany_indexes (name : String) (rs : List DocumentRecord) (s : Store) :
    (upsertMany s name rs).indexes = s.indexes := by
  induction rs generalizing s with
  | nil => rfl
  | cons a t ih => exact (ih (upsertOne s name a)).trans rfl

/-- Claim C5: in a configured startup with the store reachable, the lifespan
trace is exactly one create_index_maybe call followed by one
is_index_empty check, then only ingestion actions, and the yield that
starts request serving comes strictly last: no request-serving happens
before index creation and ingestion finish. -/
theorem startup_barrier_ordering (env : Env) (conns : List Connection) (s : Store)
    (corpus : List Row) (prov : EmbedProvider) (cs iname ename cm : String)
    (hconn : env.aiprojectConnStr = some cs)
    (hiname : env.searchIndexName = some iname)
    (hename : env.embedDeploymentName = some ename)
    (hchat : env.chatDeploymentName = some cm)
    (hconf : ragConfigured env conns = true) :
    ∃ utr, (lifespan env conns (.up s) corpus prov).1
        = Action.createIndexMaybe iname 100 :: Action.isIndexEmpty iname
            :: (utr ++ [Action.yieldServe])
      ∧ ∀ a ∈ utr, a = Action.uploadDocuments embeddingsCsvPath ∨ isUpsertAction a = true := by
  rw [lifespan_configured env conns _ corpus prov cs hconn hconf, hiname, hename,
    Option.getD_some, Option.getD_some]
  by_cases hempty : docCount s iname = 0
  · rw [ragStartup_up_empty _ _ _ _ _ _ _ hempty,
      finishStartup_ok _ _ _ _ _ _ _ hchat hename]
    refine ⟨Action.uploadDocuments embeddingsCsvPath
        :: (ingest prov (ensureStore s iname 100 .cosine) iname 100 corpus).2.2, ?_, ?_⟩
    · simp
    · intro a ha
      rcases List.mem_cons.mp ha with h | h
      · exact Or.inl h
      · exact Or.inr (ingest_actions_upserts _ _ _ _ _ a h)
  · rw [ragStartup_up_nonempty _ _ _ _ _ _ _ hempty,
      finishStartup_ok _ _ _ _ _ _ _ hchat hename]
    exact ⟨[], by simp, by simp⟩

theorem startup_barrier_ordering_witness :
    ∃ utr, (lifespan cEnv cConns (.up emptyStore) [cRow] cProv).1
        = Action.createIndexMaybe "idx" 100 :: Action.isIndexEmpty "idx"
            :: (utr ++ [Action.yieldServe])
      ∧ ∀ a ∈ utr, a = Action.uploadDocuments embeddingsCsvPath ∨ isUpsertAction a = true :=
  startup_barrier_ordering cEnv cConns emptyStore [cRow] cProv
    "conn" "idx" "embed" "chat" rfl rfl rfl rfl (by decide)

/-- Claim C6: in a configured startup, when the store is unreachable the very
first store call fails and the error propagates out of the lifespan with
no retry: the trace holds the single create_index_maybe attempt, there is
no yield, and the result is the storeUnreachable error, so the process
never starts serving retrieval-backed answers. -/
theorem store_failure_fatal_at_startup (env : Env) (conns : List Connection)
    (corpus : List Row) (prov : EmbedProvider) (cs iname : String)
    (hconn : env.aiprojectConnStr = some cs)
    (hiname : env.searchIndexName = some iname)
    (hconf : ragConfigured env conns = true) :
    lifespan env conns .down corpus prov =
      ([Action.createIndexMaybe iname 100], .error .storeUnreachable) := by
  rw [lifespan_configured env conns _ corpus prov cs hconn hconf, hiname,
    Option.getD_some]
  exact ragStartup_down _ _ _ _ _ _

theorem store_failure_fatal_at_startup_witness :
    lifespan cEnv cConns .down [cRow] cProv =
      ([Action.createIndexMaybe "idx" 100], .error .storeUnreachable) :=
  store_failure_fatal_at_startup cEnv cConns [cRow] cProv "conn" "idx"
    rfl rfl (by decide)

/-- Claim C10: the endpoint used for the RAG helper is always the endpoint of
the first listed Azure AI Search connection: connections after the first
never influence the startup outcome; when the list is empty the endpoint
stays None, the index creation and ingestion calls are skipped entirely,
and startup still completes (the trace is the bare yield). -/
theorem endpoint_first_connection :
    (∀ env (c : Connection) rest rest' sc corpus prov,
      lifespan env (c :: rest) sc corpus prov = lifespan env (c :: rest') sc corpus prov)
    ∧ (∀ env sc corpus prov cs cm em, env.aiprojectConnStr = some cs →
        env.chatDeploymentName = some cm → env.embedDeploymentName = some em →
        lifespan env [] sc corpus prov =
          ([Action.yieldServe],
           .ok { endpoint := none, rag := none, finalStore := sc,
                 chat_model := cm, embed_model := em }))
    ∧ (∀ env conns sc corpus prov ok,
        (lifespan env conns sc corpus prov).2 = .ok ok →
        ok.endpoint = firstEndpoint conns) := by
  refine ⟨?_, ?_, ?_⟩
  · intro env c rest rest' sc corpus prov
    rfl
  · intro env sc corpus prov cs cm em hconn hchat hembed
    have hconf : ragConfigured env [] = false := by
      simp [ragConfigured, firstEndpoint, truthy]
    rw [lifespan_not_configured env [] sc corpus prov cs hconn hconf,
      finishStartup_ok _ _ _ _ _ _ _ hchat hembed]
    rfl
  · intro env conns sc corpus prov ok h
    cases hconn : env.aiprojectConnStr with
    | none =>
      rw [lifespan_conn_none _ _ _ _ _ hconn] at h
      simp at h
    | some cs =>
      by_cases hconf : ragConfigured env conns = true
      · rw [lifespan_configured _ _ _ _ _ _ hconn hconf] at h
        cases hfe : firstEndpoint conns with
        | none =>
          rw [ragConfigured, hfe] at hconf
          simp [truthy] at hconf
        | some ep =>
          rw [hfe, Option.getD_some] at h
          cases sc with
          | down =>
            rw [ragStartup_down] at h
            simp at h
          | up s =>
            by_cases hempty : docCount s (env.searchIndexName.getD "") = 0
            · rw [ragStartup_up_empty _ _ _ _ _ _ _ hempty] at h
              rw [(finishStartup_ok_inv _ _ _ _ _ _ h).1]
            · rw [ragStartup_up_nonempty _ _ _ _ _ _ _ hempty] at h
              rw [(finishStartup_ok_inv _ _ _ _ _ _ h).1]
      · have hconf' : ragConfigured env conns = false := by
          revert hconf
          cases ragConfigured env conns <;> simp
        rw [lifespan_not_configured _ _ _ _ _ _ hconn hconf'] at h
        exact (finishStartup_ok_inv _ _ _ _ _ _ h).1

theorem endpoint_first_connection_witness :
    (lifespan cEnv [{ endpoint_url := "ep" }, { endpoint_url := "other" }]
        (.up emptyStore) [] cProv
      = lifespan cEnv [{ endpoint_url := "ep" }] (.up emptyStore) [] cProv)
    ∧ lifespan cEnv [] (.up emptyStore) [] cProv
        = ([Action.yieldServe],
           .ok { endpoint := none, rag := none, finalStore := .up emptyStore,
                 chat_model := "chat", embed_model := "embed" }) :=
  ⟨endpoint_first_connection.1 cEnv { endpoint_url := "ep" }
      [{ endpoint_url := "other" }] [] (.up emptyStore) [] cProv,
   endpoint_first_connection.2.1 cEnv (.up emptyStore) [] cProv
      "conn" "chat" "embed" rfl rfl rfl⟩

/-- Claim C3 counterexample: a fully configured startup in which the Embedding
Provider returns vectors of length 3.  No configuration value anywhere in
the environment carries a dimensionality, the index is created with the
hardcoded vector dimensionality 100, and startup completes with no fatal
error despite the mismatch between 100 and the provider's output length
(the corpus row is merely recorded as an ingestion failure). -/
theorem dimensionality_hardcoded_counterexample :
    ((cProv "hello").length : Int) ≠ 100
    ∧ lifespan cEnv cConns (.up emptyStore) [cRow] cProv =
        ([Action.createIndexMaybe "idx" 100, Action.isIndexEmpty "idx",
          Action.uploadDocuments embeddingsCsvPath, Action.yieldServe],
         .ok { endpoint := some "ep"
               rag := some { endpoint := "ep", index_name := "idx",
                             dimensions := 100, model := "embed" }
               finalStore := .up { indexes := [("idx", builtSchema 100 .cosine)], docs := [] }
               chat_model := "chat"
               embed_model := "embed" }) :=
  ⟨by decide, rfl⟩

/-- Claim C3 amended: the vector dimensionality used when creating the index is
the hardcoded constant 100 (passed both to the RAGHelper constructor and
as the dimensions_override argument of create_index_maybe in main.py
lines 97 and 103), independent of any startup configuration value and of
the Embedding Provider's output length; no mismatch check is performed at
startup.  Whenever a configured startup succeeds on a store without the
index, the published helper carries dimensions 100 and the final store
holds the index with the schema built for dimensionality 100. -/
theorem dimensionality_hardcoded (env : Env) (conns : List Connection) (s : Store)
    (corpus : List Row) (prov : EmbedProvider) (cs iname : String)
    (hconn : env.aiprojectConnStr = some cs)
    (hiname : env.searchIndexName = some iname)
    (hconf : ragConfigured env conns = true)
    (hnew : indexExists s iname = false) :
    ∀ ok, (lifespan env conns (.up s) corpus prov).2 = .ok ok →
      (∃ ep, ok.rag = some { endpoint := ep, index_name := iname, dimensions := 100,
                             model := env.embedDeploymentName.getD "" })
      ∧ ∃ s2, ok.finalStore = .up s2
          ∧ (iname, builtSchema 100 Metric.cosine) ∈ s2.indexes := by
  intro ok h
  rw [lifespan_configured env conns _ corpus prov cs hconn hconf, hiname,
    Option.getD_some] at h
  by_cases hempty : docCount s iname = 0
  · rw [ragStartup_up_empty _ _ _ _ _ _ _ hempty] at h
    obtain ⟨he, hr, hf⟩ := finishStartup_ok_inv _ _ _ _ _ _ h
    refine ⟨⟨_, hr⟩, _, hf, ?_⟩
    have hix : ((ingest prov (ensureStore s iname 100 .cosine) iname 100 corpus).1).indexes
        = (ensureStore s iname 100 .cosine).indexes := upsertMany_indexes _ _ _
    rw [hix]
    simp [ensureStore, hnew, createIndex]
  · rw [ragStartup_up_nonempty _ _ _ _ _ _ _ hempty] at h
    obtain ⟨he, hr, hf⟩ := finishStartup_ok_inv _ _ _ _ _ _ h
    refine ⟨⟨_, hr⟩, _, hf, ?_⟩
    simp [ensureStore, hnew, createIndex]

theorem dimensionality_hardcoded_witness :
    (∃ ep, (LifespanOk.rag
        { endpoint := some "ep"
          rag := some { endpoint := "ep", index_name := "idx",
                        dimensions := 100, model := "embed" }
          finalStore := .up { indexes := [("idx", builtSchema 100 .cosine)], docs := [] }
          chat_model := "chat"
          embed_model := "embed" })
        = some { endpoint := ep, index_name := "idx", dimensions := 100,
                 model := cEnv.embedDeploymentName.getD "" })
    ∧ ∃ s2, (LifespanOk.finalStore
        { endpoint := some "ep"
          rag := some { endpoint := "ep", index_name := "idx",
                        dimensions := 100, model := "embed" }
          finalStore := .up { indexes := [("idx", builtSchema 100 .cosine)], docs := [] }
          chat_model := "chat"
          embed_model := "embed" })
        = .up s2 ∧ ("idx", builtSchema 100 Metric.cosine) ∈ s2.indexes :=
  dimensionality_hardcoded cEnv cConns emptyStore [cRow] cProv "conn" "idx"
    rfl rfl (by decide) rfl _ rfl

/-- An environment in which the search index name is unset while every
other startup variable is set. -/
def c4Env : Env :=
  { aiprojectConnStr := some "conn"
    searchIndexName := none
    embedDeploymentName := some "embed"
    chatDeploymentName := some "chat" }

/-- Claim C4 counterexample: with the index name absent and every other setting
present, startup does not fail: the RAG branch is skipped (rag stays
None), no error is raised, and the lifespan reaches its yield, so the
process serves requests without retrieval. -/
theorem missing_index_name_counterexample :
    c4Env.searchIndexName = none
    ∧ lifespan c4Env cConns (.up emptyStore) [] cProv =
        ([Action.yieldServe],
         .ok { endpoint := some "ep", rag := none, finalStore := .up emptyStore,
               chat_model := "chat", embed_model := "embed" }) :=
  ⟨rfl, rfl⟩

/-- Claim C4 amended: a missing project connection string, chat deployment name
or embed deployment name prevents startup from completing (the os.environ
lookup raises a fatal KeyError before the yield), but a missing search
index name does not abort startup: the RAG setup is skipped and the
lifespan completes with rag set to None, serving without retrieval. -/
theorem missing_settings_policy :
    (∀ env conns sc corpus prov, env.aiprojectConnStr = none →
      lifespan env conns sc corpus prov =
        ([], .error (.keyError "AZURE_AIPROJECT_CONNECTION_STRING")))
    ∧ (∀ env conns sc corpus prov, env.chatDeploymentName = none →
        (lifespan env conns sc corpus prov).2.isOk = false)
    ∧ (∀ env conns sc corpus prov, env.embedDeploymentName = none →
        (lifespan env conns sc corpus prov).2.isOk = false)
    ∧ (∀ env conns sc corpus prov cs cm em, env.aiprojectConnStr = some cs →
        env.searchIndexName = none → env.chatDeploymentName = some cm →
        env.embedDeploymentName = some em →
        lifespan env conns sc corpus prov =
          ([Action.yieldServe],
           .ok { endpoint := firstEndpoint conns, rag := none, finalStore := sc,
                 chat_model := cm, embed_model := em })) := by
  refine ⟨?_, ?_, ?_, ?_⟩
  · intro env conns sc corpus prov hconn
    exact lifespan_conn_none _ _ _ _ _ hconn
  · intro env conns sc corpus prov hchat
    cases hconn : env.aiprojectConnStr with
    | none =>
      rw [lifespan_conn_none _ _ _ _ _ hconn]
      rfl
    | some cs =>
      by_cases hconf : ragConfigured env conns = true
      · rw [lifespan_configured _ _ _ _ _ _ hconn hconf]
        cases sc with
        | down =>
          rw [ragStartup_down]
          rfl
        | up s =>
          by_cases hempty : docCount s (env.searchIndexName.getD "") = 0
          · rw [ragStartup_up_empty _ _ _ _ _ _ _ hempty,
              finishStartup_chat_none _ _ _ _ _ hchat]
            rfl
          · rw [ragStartup_up_nonempty _ _ _ _ _ _ _ hempty,
              finishStartup_chat_none _ _ _ _ _ hchat]
            rfl
      · have hconf' : ragConfigured env conns = false := by
          revert hconf
          cases ragConfigured env conns <;> simp
        rw [lifespan_not_configured _ _ _ _ _ _ hconn hconf',
          finishStartup_chat_none _ _ _ _ _ hchat]
        rfl
  · intro env conns sc corpus prov hembed
    cases hconn : env.aiprojectConnStr with
    | none =>
      rw [lifespan_conn_none _ _ _ _ _ hconn]
      rfl
    | some cs =>
      have hconf' : ragConfigured env conns = false := by
        simp [ragConfigured, hembed, truthy]
      rw [lifespan_not_configured _ _ _ _ _ _ hconn hconf']
      cases hchat : env.chatDeploymentName with
      | none =>
        rw [finishStartup_chat_none _ _ _ _ _ hchat]
        rfl
      | some cm =>
        rw [finishStartup_embed_none _ _ _ _ _ _ hchat hembed]
        rfl
  · intro env conns sc corpus prov cs cm em hconn hidx hchat hembed
    have hconf' : ragConfigured env conns = false := by
      simp [ragConfigured, hidx, truthy]
    rw [lifespan_not_configured _ _ _ _ _ _ hconn hconf',
      finishStartup_ok _ _ _ _ _ _ _ hchat hembed]
    rfl

theorem missing_settings_policy_witness :
    lifespan c4Env cConns (.up emptyStore) [] cProv =
      ([Action.yieldServe],
       .ok { endpoint := firstEndpoint cConns, rag := none,
             finalStore := .up emptyStore, chat_model := "chat",
             embed_model := "embed" }) :=
  missing_settings_policy.2.2.2 c4Env cConns (.up emptyStore) [] cProv
    "conn" "chat" "embed" rfl rfl rfl rfl

end AzureRag
